import Mathlib

/-!
Shallow embedding of the product-catalog service (src/app): the Pydantic
field validators from app/schemas/producto.py and the CRUD repository from
app/crud/producto.py over an explicit list-backed store, together with
theorems settling the frozen claims about them.

Conventions of the embedding:
* Python `Decimal` values are pairs (coefficient, exponent) with value
  mant * 10 ^ exp, mirroring `Decimal.as_tuple()`; comparisons go through
  the exact rational value `Dec.toRat`.
* Python strings are Lean `String`s; `str.split('-')` is `splitOnChar '-'`
  over the character list, `str.upper()` / `str.lower()` map
  `Char.toUpper` / `Char.toLower` over it.
* The SQLAlchemy session is a list of rows in insertion order plus the
  next autoincrement id; `func.now()` timestamps are naturals passed in
  as `now`.
* The `onupdate=func.now()` refresh of `fecha_actualizacion` fires exactly
  when the flush emits an UPDATE. SQLAlchemy decides "net change" per
  attribute with Python `==`, which on `Decimal` is numeric equality
  (`Decimal('1') == Decimal('1.00')`), so a column set to a value-equal
  decimal of different scale is excluded from the UPDATE and, after
  `db.refresh`, keeps its stored representation; if no column's value
  changed, no UPDATE is emitted at all and the row comes back unchanged.
* `ilike` is SQL case-insensitive LIKE: `%` matches any sequence, `_` any
  single character, other characters match up to lowercasing.
-/

instance {ε α : Type} [DecidableEq ε] [DecidableEq α] : DecidableEq (Except ε α) := fun x y =>
  match x, y with
  | .ok a, .ok b =>
    if h : a = b then .isTrue (by rw [h]) else .isFalse (by simp [h])
  | .error a, .error b =>
    if h : a = b then .isTrue (by rw [h]) else .isFalse (by simp [h])
  | .ok _, .error _ => .isFalse (by simp)
  | .error _, .ok _ => .isFalse (by simp)

/-- Test whether an `Except` result is an error. -/
def isErr {α : Type} (e : Except String α) : Bool :=
  match e with
  | .error _ => true
  | .ok _ => false

/-- Python `str.split(sep)` on a character list: segments between
occurrences of `sep`, keeping empty segments, `[""]` on the empty
string. -/
def splitOnChar (sep : Char) : List Char → List (List Char)
  | [] => [[]]
  | c :: cs =>
    let r := splitOnChar sep cs
    if c = sep then [] :: r
    else
      match r with
      | [] => [[c]]
      | h :: t => (c :: h) :: t

/-- Python `str.upper()`. -/
def pyUpper (s : String) : String :=
  ⟨s.data.map Char.toUpper⟩

/-- Python `str.lower()` (and SQL LOWER), as a character list. -/
def pyLower (s : String) : List Char :=
  s.data.map Char.toLower

/-- A Python `Decimal` as coefficient and exponent: the value is
`mant * 10 ^ exp`, and `exp` is `Decimal.as_tuple().exponent`. -/
structure Dec where
  mant : Int
  exp : Int
deriving DecidableEq, Repr

/-- Exact rational value of a decimal, the semantics `Decimal` comparisons
use. -/
def Dec.toRat (d : Dec) : ℚ :=
  (d.mant : ℚ) * (10 : ℚ) ^ d.exp

/-- Embedding of the `sku` checks on `ProductoBase`: the pydantic
`Field(min_length=3, max_length=20)` bound runs first, then
`validate_sku` rejects the empty string, requires `v.split('-')` to have
exactly two parts, and returns `v.upper()`. -/
def validate_sku (v : String) : Except String String :=
  if v.length < 3 ∨ 20 < v.length then
    .error "String should have at least 3 and at most 20 characters"
  else if v = "" then
    .error "El SKU no puede estar vacio"
  else if (splitOnChar '-' v.data).length ≠ 2 then
    .error "El SKU debe tener formato XXX-NNNN (ej: PAN-0001)"
  else
    .ok (pyUpper v)

/-- Embedding of the `sku` checks on `ProductoUpdate`: a missing field
passes through untouched, a supplied one goes through the same bound and
`validate_sku` body as on create. -/
def validate_sku_update (v : Option String) : Except String (Option String) :=
  match v with
  | none => .ok none
  | some s =>
    if s.length < 3 ∨ 20 < s.length then
      .error "String should have at least 3 and at most 20 characters"
    else if s = "" then
      .error "El SKU no puede estar vacio"
    else if (splitOnChar '-' s.data).length ≠ 2 then
      .error "El SKU debe tener formato XXX-NNNN (ej: PAN-0001)"
    else
      .ok (some (pyUpper s))

/-- Embedding of the `precio_unitario` checks: the pydantic `Field(gt=0)`
bound runs first, then `validate_precio` rejects `v <= 0` and rejects
`v.as_tuple().exponent < -2`. -/
def validate_precio (v : Dec) : Except String Dec :=
  if ¬ (0 < v.toRat) then
    .error "Input should be greater than 0"
  else if v.toRat ≤ 0 then
    .error "El precio unitario debe ser mayor a 0"
  else if v.exp < -2 then
    .error "El precio unitario no puede tener mas de 2 decimales"
  else
    .ok v

/-- Embedding of the `stock` checks: the pydantic `Field(ge=0)` bound runs
first, then `validate_stock` rejects `v < 0`. -/
def validate_stock (v : Int) : Except String Int :=
  if v < 0 then
    .error "Input should be greater than or equal to 0"
  else if v < 0 then
    .error "El stock no puede ser negativo"
  else
    .ok v

/-- A row of the `productos` table (app/models/producto.py). -/
structure Producto where
  id : Nat
  nombre : String
  sku : String
  categoria : String
  precio_unitario : Dec
  stock : Int
  disponible : Bool
  fecha_registro : Nat
  fecha_actualizacion : Nat
deriving DecidableEq, Repr

/-- A validated create payload (`ProductoCreate`), the sku already
normalized by `validate_sku`. -/
structure ProductoCreate where
  nombre : String
  sku : String
  categoria : String
  precio_unitario : Dec
  stock : Int
  disponible : Bool
deriving DecidableEq, Repr

/-- A validated partial-update payload (`ProductoUpdate`): `none` is a
field absent from the request (pydantic `exclude_unset`), `some` a
supplied, validated value. -/
structure ProductoUpdate where
  nombre : Option String
  sku : Option String
  categoria : Option String
  precio_unitario : Option Dec
  stock : Option Int
  disponible : Option Bool
deriving DecidableEq, Repr

/-- The backing store: rows in insertion order plus the next
autoincrement id. -/
structure DB where
  rows : List Producto
  nextId : Nat
deriving DecidableEq, Repr

/-- `ProductoCRUD.create`: checks no existing row has the payload's sku,
then inserts a row with the next id and both timestamps set to now. -/
def create (db : DB) (now : Nat) (p : ProductoCreate) : Except String (Producto × DB) :=
  match db.rows.find? (fun r => r.sku == p.sku) with
  | some _ => .error ("El SKU " ++ p.sku ++ " ya existe")
  | none =>
    let r : Producto :=
      ⟨db.nextId, p.nombre, p.sku, p.categoria, p.precio_unitario, p.stock, p.disponible, now, now⟩
    .ok (r, ⟨db.rows ++ [r], db.nextId + 1⟩)

/-- `ProductoCRUD.get_by_id`: first row with the given id, if any. -/
def get_by_id (db : DB) (pid : Nat) : Option Producto :=
  db.rows.find? (fun r => r.id == pid)

/-- `ProductoCRUD.get_by_sku`: first row whose sku equals the uppercased
argument. -/
def get_by_sku (db : DB) (sku : String) : Option Producto :=
  db.rows.find? (fun r => r.sku == pyUpper sku)

/-- Category filter of `get_all` / `count_all`: the Python code tests the
argument's truthiness (`if categoria:`), so `None` and the empty string
both leave the query unfiltered. -/
def applyCatFilter (cat : Option String) (rows : List Producto) : List Producto :=
  match cat with
  | none => rows
  | some c => if c = "" then rows else rows.filter (fun r => r.categoria == c)

/-- Availability filter of `get_all` / `count_all`: applied whenever the
argument is present (`if disponible is not None:`). -/
def applyDispFilter (disp : Option Bool) (rows : List Producto) : List Producto :=
  match disp with
  | none => rows
  | some d => rows.filter (fun r => r.disponible == d)

/-- `ProductoCRUD.get_all`: optional category and availability filters,
then `offset(skip).limit(limit)` over the rows in insertion order. -/
def get_all (db : DB) (skip limit : Nat) (cat : Option String) (disp : Option Bool) :
    List Producto :=
  (((applyDispFilter disp (applyCatFilter cat db.rows))).drop skip).take limit

/-- `ProductoCRUD.count_all`: same filters as `get_all`, then `count()`. -/
def count_all (db : DB) (cat : Option String) (disp : Option Bool) : Nat :=
  (applyDispFilter disp (applyCatFilter cat db.rows)).length

/-- Overlay of the supplied update fields onto a stored row
(`setattr(db_producto, field, value)` for each field in
`model_dump(exclude_unset=True)`). -/
def applyUpdate (r : Producto) (u : ProductoUpdate) : Producto :=
  { r with
    nombre := u.nombre.getD r.nombre
    sku := u.sku.getD r.sku
    categoria := u.categoria.getD r.categoria
    precio_unitario := u.precio_unitario.getD r.precio_unitario
    stock := u.stock.getD r.stock
    disponible := u.disponible.getD r.disponible }

/-- Replace the first row with the given id (in-place mutation of the
queried ORM object). -/
def replaceById : List Producto → Nat → Producto → List Producto
  | [], _, _ => []
  | r :: rs, pid, nr => if r.id = pid then nr :: rs else r :: replaceById rs pid nr

/-- Duplicate-sku pre-check of `ProductoCRUD.update`: runs only when the
payload's sku is truthy (`if producto_update.sku`) and differs from the
stored one, and looks for another row with that sku and a different
id. -/
def skuConflict (db : DB) (pid : Nat) (r : Producto) (u : ProductoUpdate) : Bool :=
  match u.sku with
  | none => false
  | some s =>
    if s ≠ "" ∧ s ≠ r.sku then
      (db.rows.find? (fun q => q.sku == s && q.id != pid)).isSome
    else false

/-- Python `==` on `Decimal` column values: numeric equality
(`Decimal('1') == Decimal('1.00')`), computed by rescaling the
coefficient with the smaller exponent's deficit. -/
def Dec.valEq (a b : Dec) : Bool :=
  if a.exp ≤ b.exp then a.mant == b.mant * 10 ^ (b.exp - a.exp).toNat
  else a.mant * 10 ^ (a.exp - b.exp).toNat == b.mant

/-- Python `==` column by column on two rows, the comparison SQLAlchemy's
flush uses to decide whether any attribute has a net change: `Decimal`
compares numerically, every other column type structurally. -/
def pyRowEq (a b : Producto) : Bool :=
  a.id == b.id && a.nombre == b.nombre && a.sku == b.sku && a.categoria == b.categoria &&
  Dec.valEq a.precio_unitario b.precio_unitario && a.stock == b.stock &&
  a.disponible == b.disponible && a.fecha_registro == b.fecha_registro &&
  a.fecha_actualizacion == b.fecha_actualizacion

/-- Two rows agreeing column by column under Python equality, stated at
the specification level: equal fields, with `precio_unitario` compared
by its exact rational value. -/
def sameStoredValues (a b : Producto) : Prop :=
  a.id = b.id ∧ a.nombre = b.nombre ∧ a.sku = b.sku ∧ a.categoria = b.categoria ∧
  a.precio_unitario.toRat = b.precio_unitario.toRat ∧ a.stock = b.stock ∧
  a.disponible = b.disponible ∧ a.fecha_registro = b.fecha_registro ∧
  a.fecha_actualizacion = b.fecha_actualizacion

/-- The row a successful update stores and returns: the supplied fields
overlaid, then the flush. If no column's value changed under Python `==`
no UPDATE is emitted and `db.refresh` returns the stored row unchanged;
otherwise the UPDATE carries exactly the columns whose value changed, so
a `precio_unitario` set to a value-equal decimal of different scale keeps
its stored representation, and the `onupdate` hook refreshes
`fecha_actualizacion` to now. -/
def updatedRow (r : Producto) (u : ProductoUpdate) (now : Nat) : Producto :=
  if pyRowEq (applyUpdate r u) r then r
  else
    { applyUpdate r u with
      precio_unitario :=
        if Dec.valEq (applyUpdate r u).precio_unitario r.precio_unitario then
          r.precio_unitario
        else (applyUpdate r u).precio_unitario
      fecha_actualizacion := now }

/-- `ProductoCRUD.update`: not-found yields `none`; a conflicting sku
raises; otherwise the updated row replaces the stored one. -/
def update (db : DB) (now : Nat) (pid : Nat) (u : ProductoUpdate) :
    Except String (Option (Producto × DB)) :=
  match db.rows.find? (fun r => r.id == pid) with
  | none => .ok none
  | some r =>
    if skuConflict db pid r u then
      .error ("El SKU ya existe")
    else
      .ok (some (updatedRow r u now, ⟨replaceById db.rows pid (updatedRow r u now), db.nextId⟩))

/-- Remove the first row with the given id. -/
def removeById : List Producto → Nat → List Producto
  | [], _ => []
  | r :: rs, pid => if r.id = pid then rs else r :: removeById rs pid

/-- `ProductoCRUD.delete`: removes the row with the given id when present
and reports whether one existed. -/
def delete (db : DB) (pid : Nat) : Bool × DB :=
  match db.rows.find? (fun r => r.id == pid) with
  | none => (false, db)
  | some _ => (true, ⟨removeById db.rows pid, db.nextId⟩)

/-- Does any suffix of the list satisfy the test? Helper for the `%`
wildcard. -/
def anySuffix (f : List Char → Bool) : List Char → Bool
  | [] => f []
  | c :: cs => f (c :: cs) || anySuffix f cs

/-- SQL LIKE matching of a pattern against a string, both as character
lists: `%` matches any sequence, `_` any single character, anything else
itself. -/
def likeMatch : List Char → (List Char → Bool)
  | [] => fun s => s.isEmpty
  | p :: ps =>
    let rest := likeMatch ps
    fun s =>
      if p = '%' then anySuffix rest s
      else
        match s with
        | [] => false
        | c :: cs => (if p = '_' then true else p == c) && rest cs

/-- SQLAlchemy `column.ilike(pattern)`: LIKE matching after lowercasing
both sides. -/
def ilike (s pat : String) : Bool :=
  likeMatch (pyLower pat) (pyLower s)

/-- `ProductoCRUD.search_by_nombre`: rows whose name matches
`ilike('%' + nombre + '%')`, with the same offset/limit pagination as
`get_all`. -/
def search_by_nombre (db : DB) (nombre : String) (skip limit : Nat) : List Producto :=
  ((db.rows.filter (fun r => ilike r.nombre ("%" ++ nombre ++ "%"))).drop skip).take limit

/-- Spec-side search, written from the spec's words for comparison with
`search_by_nombre`: rows whose name contains the search string as a
case-insensitive literal substring, with the same pagination. -/
def specSearchByNombre (db : DB) (nombre : String) (skip limit : Nat) : List Producto :=
  ((db.rows.filter (fun r => decide (pyLower nombre <:+: pyLower r.nombre))).drop skip).take limit

/-- Record matching a (truthiness-tested) category filter, for stating
what `get_all` returns. -/
def matchesCat (cat : Option String) (r : Producto) : Bool :=
  match cat with
  | none => true
  | some c => if c = "" then true else r.categoria == c

/-- Record matching an availability filter. -/
def matchesDisp (disp : Option Bool) (r : Producto) : Bool :=
  match disp with
  | none => true
  | some d => r.disponible == d

/-- Supplied-sku update validation is create-sku validation with the
result wrapped in `some`. -/
lemma validate_sku_update_some (v : String) :
    validate_sku_update (some v) = Except.map some (validate_sku v) := by
  simp only [validate_sku_update, validate_sku]
  split_ifs <;> rfl

/-- An accepted sku is returned uppercased. -/
lemma validate_sku_ok_eq {s v : String} (h : validate_sku s = .ok v) : v = pyUpper s := by
  unfold validate_sku at h
  split_ifs at h
  exact (Except.ok.injEq _ _).mp h.symm

/-- C1 counterexample: the sku `"-AB"` splits on `-` into an empty
segment and `"AB"`, yet both the create and the update validators accept
it (returning it unchanged by uppercasing), instead of rejecting it with
a validation error as the claim states. -/
theorem C1_counterexample :
    validate_sku "-AB" = .ok "-AB" ∧
    validate_sku_update (some "-AB") = .ok (some "-AB") ∧
    splitOnChar '-' "-AB".data = [[], ['A', 'B']] := by
  decide

/-- C1 (amended): for every create or update payload, sku validation
accepts the sku field exactly when it is 3-20 characters long and
splitting it on `-` yields exactly two segments, which may be empty;
on acceptance it returns the sku normalized to uppercase, and an absent
sku on update passes through untouched. -/
theorem C1_sku_validation (v u : String) :
    (validate_sku v = .ok u ↔
      (3 ≤ v.length ∧ v.length ≤ 20 ∧ (splitOnChar '-' v.data).length = 2 ∧ u = pyUpper v)) ∧
    (validate_sku_update (some v) = .ok (some u) ↔
      (3 ≤ v.length ∧ v.length ≤ 20 ∧ (splitOnChar '-' v.data).length = 2 ∧ u = pyUpper v)) ∧
    validate_sku_update none = .ok none := by
  have hmain : validate_sku v = .ok u ↔
      (3 ≤ v.length ∧ v.length ≤ 20 ∧ (splitOnChar '-' v.data).length = 2 ∧ u = pyUpper v) := by
    unfold validate_sku
    split_ifs with h1 h2 h3
    · simp only [reduceCtorEq, false_iff]
      rintro ⟨ha, hb, -, -⟩
      omega
    · subst h2
      exact absurd (Or.inl (by decide)) h1
    · simp only [reduceCtorEq, false_iff]
      rintro ⟨-, -, hs, -⟩
      exact h3 hs
    · push_neg at h1 h3
      simp only [Except.ok.injEq]
      constructor
      · intro h
        exact ⟨h1.1, h1.2, h3, h.symm⟩
      · intro h
        exact h.2.2.2.symm
  refine ⟨hmain, ?_, rfl⟩
  rw [validate_sku_update_some, ← hmain]
  cases hv : validate_sku v <;> simp [Except.map]

/-- Powers of ten are positive rationals. -/
lemma ten_zpow_pos (e : ℤ) : (0 : ℚ) < (10 : ℚ) ^ e :=
  zpow_pos (by norm_num) e

/-- A decimal's value is positive exactly when its coefficient is. -/
lemma toRat_pos_iff (v : Dec) : 0 < v.toRat ↔ 0 < v.mant := by
  unfold Dec.toRat
  have hp := ten_zpow_pos v.exp
  constructor
  · intro h
    by_contra hm
    push_neg at hm
    have hm' : (v.mant : ℚ) ≤ 0 := by exact_mod_cast hm
    nlinarith
  · intro h
    have h' : (0 : ℚ) < (v.mant : ℚ) := by exact_mod_cast h
    exact mul_pos h' hp

/-- Evaluated form of the price validator: positivity of the coefficient
decides the sign checks, then the exponent bound decides the rest. -/
lemma validate_precio_eq_mant (v : Dec) :
    validate_precio v =
      if 0 < v.mant then
        (if v.exp < -2 then .error "El precio unitario no puede tener mas de 2 decimales"
         else .ok v)
      else .error "Input should be greater than 0" := by
  unfold validate_precio
  by_cases hm : 0 < v.mant
  · have hpos : 0 < v.toRat := (toRat_pos_iff v).mpr hm
    rw [if_neg (not_not_intro hpos), if_neg (not_le.mpr hpos), if_pos hm]
  · have hnpos : ¬ 0 < v.toRat := fun h => hm ((toRat_pos_iff v).mp h)
    rw [if_pos hnpos, if_neg hm]

/-- The sample decimal -0.5 is nonpositive. -/
lemma toRat_neg51_nonpos : Dec.toRat ⟨-5, -1⟩ ≤ 0 := by
  have hp := ten_zpow_pos (-1)
  show ((-5 : ℤ) : ℚ) * (10 : ℚ) ^ (-1 : ℤ) ≤ 0
  push_cast
  nlinarith

/-- The sample decimal 1.255 is not a whole number of cents. -/
lemma toRat_1255_cent_not_int : ∀ k : ℤ, Dec.toRat ⟨1255, -3⟩ * 100 ≠ (k : ℚ) := by
  intro k h
  have e1 : Dec.toRat ⟨1255, -3⟩ * 100 = 251 / 2 := by
    unfold Dec.toRat
    norm_num
  rw [e1] at h
  have h2 : (251 : ℚ) = (k : ℚ) * 2 := by
    field_simp at h
    linarith
  have h3 : (251 : ℤ) = k * 2 := by exact_mod_cast h2
  omega

/-- C4: price validation is exact decimal arithmetic: every value at most
zero is rejected by the positivity bound; every value that is not a whole
number of cents (more than 2 fractional digits) is rejected; 0.01, 1.25
are accepted while 0.00 and 1.255 are rejected; stock -1 is rejected and
stock 0 accepted. -/
theorem C4_price_stock_validation :
    (∀ v : Dec, v.toRat ≤ 0 → validate_precio v = .error "Input should be greater than 0") ∧
    (∀ v : Dec, (∀ k : ℤ, v.toRat * 100 ≠ (k : ℚ)) → isErr (validate_precio v) = true) ∧
    validate_precio ⟨1, -2⟩ = .ok ⟨1, -2⟩ ∧
    validate_precio ⟨125, -2⟩ = .ok ⟨125, -2⟩ ∧
    validate_precio ⟨1255, -3⟩ = .error "El precio unitario no puede tener mas de 2 decimales" ∧
    validate_precio ⟨0, -2⟩ = .error "Input should be greater than 0" ∧
    validate_stock (-1) = .error "Input should be greater than or equal to 0" ∧
    validate_stock 0 = .ok 0 := by
  refine ⟨?_, ?_, ?_, ?_, ?_, ?_, by decide, by decide⟩
  · intro v h
    rw [validate_precio_eq_mant]
    have hm : ¬ 0 < v.mant := fun hmp => absurd ((toRat_pos_iff v).mpr hmp) (not_lt.mpr h)
    rw [if_neg hm]
  · intro v hk
    rw [validate_precio_eq_mant]
    by_cases hm : 0 < v.mant
    · by_cases he : v.exp < -2
      · rw [if_pos hm, if_pos he]
        rfl
      · exfalso
        push_neg at he
        set n := (v.exp + 2).toNat with hn
        have hne : v.exp + 2 = (n : ℤ) := (Int.toNat_of_nonneg (by omega)).symm
        apply hk (v.mant * 10 ^ n)
        unfold Dec.toRat
        have h10 : (10 : ℚ) ≠ 0 := by norm_num
        have e1 : (v.mant : ℚ) * 10 ^ v.exp * 100 = (v.mant : ℚ) * 10 ^ (v.exp + 2) := by
          rw [zpow_add₀ h10]
          norm_num
          ring
        rw [e1, hne, zpow_natCast]
        push_cast
        ring
    · rw [if_neg hm]
      rfl
  · rw [validate_precio_eq_mant]
    decide
  · rw [validate_precio_eq_mant]
    decide
  · rw [validate_precio_eq_mant]
    decide
  · rw [validate_precio_eq_mant]
    decide

/-- C4 witness: the general rejection clauses applied at the concrete
decimals -0.5 and 1.255. -/
theorem C4_price_stock_validation_witness :
    Dec.toRat ⟨-5, -1⟩ ≤ 0 ∧
    validate_precio ⟨-5, -1⟩ = Except.error "Input should be greater than 0" ∧
    isErr (validate_precio ⟨1255, -3⟩) = true :=
  ⟨toRat_neg51_nonpos,
   C4_price_stock_validation.1 ⟨-5, -1⟩ toRat_neg51_nonpos,
   C4_price_stock_validation.2.1 ⟨1255, -3⟩ toRat_1255_cent_not_int⟩

/-- C3: two creates whose raw skus agree up to letter case: both are
normalized to the same sku by validation, the first create inserts its
row at the end with the next id and both timestamps set to now, and the
second create fails with the duplicate-sku error before inserting
anything, leaving the first row in place. -/
theorem C3_create_duplicate_sku
    (db : DB) (now1 now2 : Nat) (s1 s2 v1 v2 : String)
    (p1 p2 : ProductoCreate) (rec1 : Producto) (db1 : DB)
    (hv1 : validate_sku s1 = .ok v1) (hv2 : validate_sku s2 = .ok v2)
    (hcase : pyUpper s1 = pyUpper s2)
    (hp1 : p1.sku = v1) (hp2 : p2.sku = v2)
    (hc1 : create db now1 p1 = .ok (rec1, db1)) :
    isErr (create db1 now2 p2) = true ∧
    rec1 ∈ db1.rows ∧
    db1.rows = db.rows ++ [rec1] ∧
    rec1.id = db.nextId ∧
    rec1.sku = v1 ∧
    rec1.fecha_registro = now1 ∧
    rec1.fecha_actualizacion = now1 := by
  have e1 : v1 = pyUpper s1 := validate_sku_ok_eq hv1
  have e2 : v2 = pyUpper s2 := validate_sku_ok_eq hv2
  have e12 : v2 = v1 := by rw [e1, e2, hcase]
  unfold create at hc1
  cases hfind : db.rows.find? (fun r => r.sku == p1.sku) with
  | some r =>
    rw [hfind] at hc1
    exact absurd hc1 (by simp)
  | none =>
    rw [hfind] at hc1
    simp only [Except.ok.injEq, Prod.mk.injEq] at hc1
    obtain ⟨hrec, hdb1⟩ := hc1
    subst hrec
    subst hdb1
    refine ⟨?_, List.mem_append_right _ (List.mem_singleton_self _), rfl, rfl, hp1, rfl, rfl⟩
    unfold create
    cases hf2 : (db.rows ++
        [(⟨db.nextId, p1.nombre, p1.sku, p1.categoria, p1.precio_unitario, p1.stock,
          p1.disponible, now1, now1⟩ : Producto)]).find? (fun r => r.sku == p2.sku) with
    | some r => rfl
    | none =>
      exfalso
      rw [List.find?_eq_none] at hf2
      refine hf2 _ (List.mem_append_right _ (List.mem_singleton_self _)) ?_
      show (p1.sku == p2.sku) = true
      rw [hp1, hp2, e12]
      exact beq_self_eq_true v1

/-- Sample empty store for the C3 witness. -/
def c3db : DB := ⟨[], 1⟩

/-- First sample create payload for the C3 witness. -/
def c3p1 : ProductoCreate := ⟨"Pan Frances", "PAN-0001", "Pan", ⟨125, -2⟩, 120, true⟩

/-- Second sample create payload (same normalized sku) for the C3
witness. -/
def c3p2 : ProductoCreate := ⟨"Otro Pan", "PAN-0001", "Pan", ⟨200, -2⟩, 10, true⟩

/-- Row the first C3 create inserts. -/
def c3rec : Producto := ⟨1, "Pan Frances", "PAN-0001", "Pan", ⟨125, -2⟩, 120, true, 3, 3⟩

/-- Store after the first C3 create. -/
def c3db1 : DB := ⟨[c3rec], 2⟩

/-- C3 witness: skus `"pan-0001"` and `"Pan-0001"` agree up to case, the
first create succeeds, the second fails. -/
theorem C3_create_duplicate_sku_witness :
    validate_sku "pan-0001" = .ok "PAN-0001" ∧
    validate_sku "Pan-0001" = .ok "PAN-0001" ∧
    create c3db 3 c3p1 = .ok (c3rec, c3db1) ∧
    isErr (create c3db1 4 c3p2) = true :=
  ⟨by decide, by decide, by decide,
   (C3_create_duplicate_sku c3db 3 4 "pan-0001" "Pan-0001" "PAN-0001" "PAN-0001"
      c3p1 c3p2 c3rec c3db1 (by decide) (by decide) (by decide) rfl rfl (by decide)).1⟩

/-- After removing the row with a given id from a list of rows with
pairwise-distinct ids, no row with that id remains. -/
lemma find?_removeById (rows : List Producto) (pid : Nat)
    (hnd : (rows.map Producto.id).Nodup) :
    (removeById rows pid).find? (fun r => r.id == pid) = none := by
  induction rows with
  | nil => rfl
  | cons r rs ih =>
    simp only [List.map_cons, List.nodup_cons] at hnd
    obtain ⟨hnotin, hnd'⟩ := hnd
    unfold removeById
    by_cases hid : r.id = pid
    · rw [if_pos hid, List.find?_eq_none]
      intro q hq hqq
      rw [beq_iff_eq] at hqq
      exact hnotin (by rw [hid, ← hqq]; exact List.mem_map_of_mem Producto.id hq)
    · rw [if_neg hid, List.find?_cons_of_neg _ (by simp [hid])]
      exact ih hnd'

/-- C6: `delete` returns `true` exactly when a row with the id exists,
leaves the store untouched when it returns `false`, and a successful
delete makes a subsequent `get_by_id` on that id report not-found
(unique ids assumed, as the system assigns them). -/
theorem C6_delete_semantics (db : DB) (pid : Nat)
    (hnd : (db.rows.map Producto.id).Nodup) :
    ((delete db pid).1 = true ↔ ∃ r ∈ db.rows, r.id = pid) ∧
    ((delete db pid).1 = false → (delete db pid).2 = db) ∧
    ((delete db pid).1 = true → get_by_id (delete db pid).2 pid = none) := by
  unfold delete
  cases hf : db.rows.find? (fun r => r.id == pid) with
  | none =>
    rw [List.find?_eq_none] at hf
    refine ⟨?_, fun _ => rfl, ?_⟩
    · constructor
      · intro h
        exact absurd h (by simp)
      · rintro ⟨r, hr, hid⟩
        exact absurd (by simp [hid] : (fun q => q.id == pid) r = true) (hf r hr)
    · intro h
      exact absurd h (by simp)
  | some r =>
    refine ⟨?_, ?_, ?_⟩
    · refine iff_of_true rfl ⟨r, List.mem_of_find?_eq_some hf, ?_⟩
      have := List.find?_some hf
      rwa [beq_iff_eq] at this
    · intro h
      exact absurd h (by simp)
    · intro _
      show (removeById db.rows pid).find? (fun q => q.id == pid) = none
      exact find?_removeById db.rows pid hnd

/-- Sample one-row store for the C6 witness. -/
def c6db : DB := ⟨[⟨1, "Pan", "PAN-0001", "Pan", ⟨125, -2⟩, 10, true, 0, 0⟩], 2⟩

/-- C6 witness: deleting the only row succeeds and the row is gone. -/
theorem C6_delete_semantics_witness :
    (c6db.rows.map Producto.id).Nodup ∧
    (delete c6db 1).1 = true ∧
    get_by_id (delete c6db 1).2 1 = none :=
  ⟨by decide, by decide, (C6_delete_semantics c6db 1 (by decide)).2.2 (by decide)⟩

/-- Rescaled-coefficient equality at the smaller exponent is exactly
equality of the decimal values. -/
lemma dec_scale_eq (a b : Dec) (h : a.exp ≤ b.exp) :
    a.mant = b.mant * 10 ^ (b.exp - a.exp).toNat ↔ a.toRat = b.toRat := by
  have h10 : (10 : ℚ) ≠ 0 := by norm_num
  have hk : ((b.exp - a.exp).toNat : ℤ) = b.exp - a.exp := Int.toNat_of_nonneg (by omega)
  unfold Dec.toRat
  constructor
  · intro hm
    rw [hm]
    push_cast
    rw [← zpow_natCast (10 : ℚ) (b.exp - a.exp).toNat, hk, mul_assoc, ← zpow_add₀ h10,
      show b.exp - a.exp + a.exp = b.exp from by ring]
  · intro hr
    have h1 : (b.mant : ℚ) * 10 ^ (b.exp - a.exp) * 10 ^ a.exp = (b.mant : ℚ) * 10 ^ b.exp := by
      rw [mul_assoc, ← zpow_add₀ h10, show b.exp - a.exp + a.exp = b.exp from by ring]
    have h2 : (a.mant : ℚ) * 10 ^ a.exp = (b.mant : ℚ) * 10 ^ (b.exp - a.exp) * 10 ^ a.exp := by
      rw [h1]
      exact hr
    have h3 := mul_right_cancel₀ (ne_of_gt (ten_zpow_pos a.exp)) h2
    have h4 : (a.mant : ℚ) = ((b.mant * 10 ^ (b.exp - a.exp).toNat : ℤ) : ℚ) := by
      push_cast
      rw [h3, ← zpow_natCast (10 : ℚ) (b.exp - a.exp).toNat, hk]
    exact_mod_cast h4

/-- `Dec.valEq` is equality of the exact rational values, i.e. Python
`==` on `Decimal`. -/
lemma Dec.valEq_iff (a b : Dec) : Dec.valEq a b = true ↔ a.toRat = b.toRat := by
  unfold Dec.valEq
  split_ifs with h
  · rw [beq_iff_eq]
    exact dec_scale_eq a b h
  · push_neg at h
    rw [beq_iff_eq]
    constructor
    · intro hm
      exact ((dec_scale_eq b a (le_of_lt h)).mp hm.symm).symm
    · intro hr
      exact ((dec_scale_eq b a (le_of_lt h)).mpr hr.symm).symm

/-- `pyRowEq` is column-by-column Python equality of the rows. -/
lemma pyRowEq_iff (a b : Producto) : pyRowEq a b = true ↔ sameStoredValues a b := by
  unfold pyRowEq sameStoredValues
  simp only [Bool.and_eq_true, beq_iff_eq, Dec.valEq_iff, and_assoc]

/-- Field view of the stored update result: id and `fecha_registro` are
the stored row's, the data columns carry the overlaid values (the price
up to value equality, since a value-equal supplied decimal keeps the
stored representation). -/
lemma updatedRow_fields (r : Producto) (u : ProductoUpdate) (now : Nat) :
    (updatedRow r u now).id = r.id ∧
    (updatedRow r u now).fecha_registro = r.fecha_registro ∧
    (updatedRow r u now).nombre = (applyUpdate r u).nombre ∧
    (updatedRow r u now).sku = (applyUpdate r u).sku ∧
    (updatedRow r u now).categoria = (applyUpdate r u).categoria ∧
    (updatedRow r u now).stock = (applyUpdate r u).stock ∧
    (updatedRow r u now).disponible = (applyUpdate r u).disponible ∧
    (updatedRow r u now).precio_unitario.toRat = (applyUpdate r u).precio_unitario.toRat := by
  unfold updatedRow
  by_cases hp : pyRowEq (applyUpdate r u) r = true
  · rw [if_pos hp]
    obtain ⟨hid, hnom, hsku, hcat, hpre, hstk, hdis, -, -⟩ := (pyRowEq_iff _ _).mp hp
    exact ⟨hid.symm ▸ rfl, rfl, hnom.symm, hsku.symm, hcat.symm, hstk.symm, hdis.symm,
      hpre.symm⟩
  · rw [if_neg hp]
    refine ⟨by simp [applyUpdate], by simp [applyUpdate], rfl, rfl, rfl, rfl, rfl, ?_⟩
    by_cases hv : Dec.valEq (applyUpdate r u).precio_unitario r.precio_unitario = true
    · simp only [hv, if_true]
      exact ((Dec.valEq_iff _ _).mp hv).symm
    · have hvf : Dec.valEq (applyUpdate r u).precio_unitario r.precio_unitario = false := by
        simpa using hv
      simp [hvf]

/-- A payload that does not supply the price leaves the stored price
representation untouched. -/
lemma updatedRow_precio_none (r : Producto) (u : ProductoUpdate) (now : Nat)
    (h : u.precio_unitario = none) :
    (updatedRow r u now).precio_unitario = r.precio_unitario := by
  unfold updatedRow
  by_cases hp : pyRowEq (applyUpdate r u) r = true
  · rw [if_pos hp]
  · rw [if_neg hp]
    simp [applyUpdate, h, ite_self]

/-- A supplied price whose value genuinely differs from the stored one is
stored as given. -/
lemma updatedRow_precio_changed (r : Producto) (u : ProductoUpdate) (now : Nat)
    (x : Dec) (hx : u.precio_unitario = some x)
    (hv : Dec.valEq x r.precio_unitario = false) :
    (updatedRow r u now).precio_unitario = x := by
  have hax : (applyUpdate r u).precio_unitario = x := by
    simp [applyUpdate, hx]
  have hrow : pyRowEq (applyUpdate r u) r = false := by
    unfold pyRowEq
    rw [hax, hv]
    simp
  unfold updatedRow
  rw [if_neg (by simp [hrow]), hax, hv]
  simp

/-- Shape of a successful update: the stored row is the first one with
the given id, the result is `updatedRow` of it, and the store has it
replaced in place with the id counter untouched. -/
lemma update_ok_shape (db : DB) (now pid : Nat) (u : ProductoUpdate)
    (r2 : Producto) (db2 : DB)
    (h : update db now pid u = .ok (some (r2, db2))) :
    ∃ r, db.rows.find? (fun q => q.id == pid) = some r ∧
      r2 = updatedRow r u now ∧
      db2 = ⟨replaceById db.rows pid (updatedRow r u now), db.nextId⟩ := by
  unfold update at h
  split at h
  · exact absurd h (by simp)
  · rename_i r heq
    split_ifs at h with hc
    simp only [Except.ok.injEq, Option.some.injEq, Prod.mk.injEq] at h
    exact ⟨r, heq, h.1.symm, h.2.symm⟩

/-- C5: a successful partial update changes exactly the supplied fields:
every supplied field takes the payload value (the price at value level:
a supplied price value-equal to the stored one is excluded from the
UPDATE by Python `==` and keeps the stored representation, a genuinely
different price is stored as given), every unsupplied data field keeps
its prior value, and id, `fecha_registro` and the store's id counter are
never changed. -/
theorem C5_partial_update_frame (db : DB) (now pid : Nat) (u : ProductoUpdate)
    (r2 : Producto) (db2 : DB)
    (h : update db now pid u = .ok (some (r2, db2))) :
    ∃ r, get_by_id db pid = some r ∧
      r2.id = r.id ∧
      r2.fecha_registro = r.fecha_registro ∧
      db2.nextId = db.nextId ∧
      (u.nombre = none → r2.nombre = r.nombre) ∧
      (∀ x, u.nombre = some x → r2.nombre = x) ∧
      (u.sku = none → r2.sku = r.sku) ∧
      (∀ x, u.sku = some x → r2.sku = x) ∧
      (u.categoria = none → r2.categoria = r.categoria) ∧
      (∀ x, u.categoria = some x → r2.categoria = x) ∧
      (u.precio_unitario = none → r2.precio_unitario = r.precio_unitario) ∧
      (∀ x, u.precio_unitario = some x → r2.precio_unitario.toRat = x.toRat) ∧
      (∀ x, u.precio_unitario = some x → Dec.valEq x r.precio_unitario = false →
        r2.precio_unitario = x) ∧
      (u.stock = none → r2.stock = r.stock) ∧
      (∀ x, u.stock = some x → r2.stock = x) ∧
      (u.disponible = none → r2.disponible = r.disponible) ∧
      (∀ x, u.disponible = some x → r2.disponible = x) := by
  obtain ⟨r, hf, hr2, hdb2⟩ := update_ok_shape db now pid u r2 db2 h
  subst hr2
  subst hdb2
  obtain ⟨hid, hreg, hnom, hsku, hcat, hstk, hdis, hpre⟩ := updatedRow_fields r u now
  refine ⟨r, hf, hid, hreg, rfl, ?_, ?_, ?_, ?_, ?_, ?_, ?_, ?_, ?_, ?_, ?_, ?_, ?_⟩
  · intro hn
    rw [hnom]
    simp [applyUpdate, hn]
  · intro x hx
    rw [hnom]
    simp [applyUpdate, hx]
  · intro hn
    rw [hsku]
    simp [applyUpdate, hn]
  · intro x hx
    rw [hsku]
    simp [applyUpdate, hx]
  · intro hn
    rw [hcat]
    simp [applyUpdate, hn]
  · intro x hx
    rw [hcat]
    simp [applyUpdate, hx]
  · intro hn
    exact updatedRow_precio_none r u now hn
  · intro x hx
    rw [hpre]
    simp [applyUpdate, hx]
  · intro x hx hv
    exact updatedRow_precio_changed r u now x hx hv
  · intro hn
    rw [hstk]
    simp [applyUpdate, hn]
  · intro x hx
    rw [hstk]
    simp [applyUpdate, hx]
  · intro hn
    rw [hdis]
    simp [applyUpdate, hn]
  · intro x hx
    rw [hdis]
    simp [applyUpdate, hx]

/-- Sample one-row store for the C5 witness. -/
def c5db : DB := ⟨[⟨1, "Pan", "PAN-0001", "Pan", ⟨125, -2⟩, 120, true, 0, 0⟩], 2⟩

/-- Stock-only update payload for the C5 witness. -/
def c5u : ProductoUpdate := ⟨none, none, none, none, some 150, none⟩

/-- Expected row after the C5 witness update. -/
def c5row : Producto := ⟨1, "Pan", "PAN-0001", "Pan", ⟨125, -2⟩, 150, true, 0, 7⟩

/-- Expected store after the C5 witness update. -/
def c5db2 : DB := ⟨[c5row], 2⟩

/-- C5 witness: updating only the stock of the sample row succeeds. -/
theorem C5_partial_update_frame_witness :
    update c5db 7 1 c5u = .ok (some (c5row, c5db2)) ∧
    (get_by_id c5db 1).isSome = true :=
  ⟨by decide,
   Exists.elim (C5_partial_update_frame c5db 7 1 c5u c5row c5db2 (by decide))
     (fun r hr => by rw [hr.1]; rfl)⟩

/-- Sample one-row store for C2 (timestamps 0). -/
def c2db : DB := ⟨[⟨1, "Pan", "PAN-0001", "Pan", ⟨125, -2⟩, 120, true, 0, 0⟩], 2⟩

/-- The row of `c2db`. -/
def c2row : Producto := ⟨1, "Pan", "PAN-0001", "Pan", ⟨125, -2⟩, 120, true, 0, 0⟩

/-- Update payload supplying no fields at all. -/
def c2emptyUpd : ProductoUpdate := ⟨none, none, none, none, none, none⟩

/-- C2 counterexample: at time 5, updating the sample row with an empty
field set succeeds and returns the row, but `fecha_actualizacion` stays
0 instead of being refreshed to 5 — the `onupdate` hook fires only when
an UPDATE is actually emitted, so a no-op field set does not advance
`updated_at`. -/
theorem C2_counterexample :
    update c2db 5 1 c2emptyUpd = .ok (some (c2row, c2db)) ∧
    c2row.fecha_actualizacion ≠ 5 := by
  decide

/-- C2 (amended): a successful update refreshes `fecha_actualizacion` to
the current time exactly when the applied field set changes some stored
column value under Python equality (numeric equality for the decimal
price); an update supplying no fields, or only values Python-equal to
the stored ones, returns the row completely unchanged. `fecha_registro`
is untouched, and `updated_at >= created_at` is preserved whenever the
current time is not before the row's creation. -/
theorem C2_updated_at (db : DB) (now pid : Nat) (u : ProductoUpdate)
    (r2 : Producto) (db2 : DB)
    (h : update db now pid u = .ok (some (r2, db2))) :
    ∃ r, get_by_id db pid = some r ∧
      (¬ sameStoredValues (applyUpdate r u) r → r2.fecha_actualizacion = now) ∧
      (sameStoredValues (applyUpdate r u) r → r2 = r) ∧
      r2.fecha_registro = r.fecha_registro ∧
      (r.fecha_registro ≤ r.fecha_actualizacion → r.fecha_registro ≤ now →
        r2.fecha_registro ≤ r2.fecha_actualizacion) := by
  obtain ⟨r, hf, hr2, hdb2⟩ := update_ok_shape db now pid u r2 db2 h
  subst hr2
  have hreg := (updatedRow_fields r u now).2.1
  refine ⟨r, hf, ?_, ?_, hreg, ?_⟩
  · intro hne
    have hrow : ¬ pyRowEq (applyUpdate r u) r = true := fun hp => hne ((pyRowEq_iff _ _).mp hp)
    show (updatedRow r u now).fecha_actualizacion = now
    unfold updatedRow
    rw [if_neg hrow]
  · intro hsame
    have hrow : pyRowEq (applyUpdate r u) r = true := (pyRowEq_iff _ _).mpr hsame
    show updatedRow r u now = r
    unfold updatedRow
    rw [if_pos hrow]
  · intro h1 h2
    rw [hreg]
    by_cases hp : pyRowEq (applyUpdate r u) r = true
    · have hu : updatedRow r u now = r := by
        unfold updatedRow
        rw [if_pos hp]
      rw [hu]
      exact h1
    · have hu : (updatedRow r u now).fecha_actualizacion = now := by
        unfold updatedRow
        rw [if_neg hp]
      rw [hu]
      exact h2

/-- Stock-only update payload for the C2 witness. -/
def c2u : ProductoUpdate := ⟨none, none, none, none, some 150, none⟩

/-- Expected row after the C2 witness update: stock changed, so
`fecha_actualizacion` advances to 5. -/
def c2row2 : Producto := ⟨1, "Pan", "PAN-0001", "Pan", ⟨125, -2⟩, 150, true, 0, 5⟩

/-- Expected store after the C2 witness update. -/
def c2db2 : DB := ⟨[c2row2], 2⟩

/-- Update payload supplying only the price 1.250, value-equal to the
stored 1.25 but with a different scale. -/
def c2decUpd : ProductoUpdate := ⟨none, none, none, some ⟨1250, -3⟩, none, none⟩

/-- C2 witness: a real field change at time 5 refreshes
`fecha_actualizacion` to 5, while a payload supplying only a value-equal
differently-scaled decimal is a no-op that returns the stored row (and
its timestamps) unchanged. -/
theorem C2_updated_at_witness :
    update c2db 5 1 c2u = .ok (some (c2row2, c2db2)) ∧
    update c2db 5 1 c2decUpd = .ok (some (c2row, c2db)) ∧
    (get_by_id c2db 1).isSome = true :=
  ⟨by decide, by decide,
   Exists.elim (C2_updated_at c2db 5 1 c2u c2row2 c2db2 (by decide))
     (fun r hr => by rw [hr.1]; rfl)⟩

/-- The filter pipeline of `get_all` / `count_all` is a single filter by
the conjunction of the per-dimension match predicates. -/
lemma applyFilters_eq_filter (cat : Option String) (disp : Option Bool)
    (rows : List Producto) :
    applyDispFilter disp (applyCatFilter cat rows) =
      rows.filter (fun r => matchesCat cat r && matchesDisp disp r) := by
  cases cat with
  | none =>
    cases disp <;> simp [applyCatFilter, applyDispFilter, matchesCat, matchesDisp]
  | some c =>
    by_cases hc : c = ""
    · subst hc
      cases disp <;> simp [applyCatFilter, applyDispFilter, matchesCat, matchesDisp]
    · cases disp with
      | none => simp [applyCatFilter, applyDispFilter, matchesCat, matchesDisp, hc]
      | some d =>
        simp [applyCatFilter, applyDispFilter, matchesCat, matchesDisp, hc,
          List.filter_filter, Bool.and_comm]

/-- C7: `count_all` with any combination of filters equals the length of
the fully-unpaginated filtered list, which is what `get_all` returns
with skip 0 and any sufficiently large limit — the same filter semantics
as listing. -/
theorem C7_count_matches_list (db : DB) (cat : Option String) (disp : Option Bool)
    (L : Nat) (hL : count_all db cat disp ≤ L) :
    count_all db cat disp = (get_all db 0 L cat disp).length ∧
    count_all db cat disp =
      (db.rows.filter (fun r => matchesCat cat r && matchesDisp disp r)).length := by
  have he := applyFilters_eq_filter cat disp db.rows
  constructor
  · unfold get_all
    unfold count_all at hL ⊢
    rw [List.drop_zero, List.length_take, Nat.min_eq_right hL]
  · unfold count_all
    rw [he]

/-- Two-category store for the C7 witness. -/
def c7db : DB :=
  ⟨[⟨1, "Pan Frances", "PAN-0001", "Pan", ⟨125, -2⟩, 120, true, 0, 0⟩,
    ⟨2, "Croissant", "PAS-0001", "Pasteleria", ⟨250, -2⟩, 40, true, 0, 0⟩], 3⟩

/-- C7 witness: counting the Pan category in the sample store matches
the length of the listed page. -/
theorem C7_count_matches_list_witness :
    count_all c7db (some "Pan") none ≤ 5 ∧
    count_all c7db (some "Pan") none = (get_all c7db 0 5 (some "Pan") none).length :=
  ⟨by decide, (C7_count_matches_list c7db (some "Pan") none 5 (by decide)).1⟩

/-- C8: `get_all` returns exactly the filtered rows (AND semantics, an
absent filter unrestricted) with the first `skip` of them dropped and at
most `limit` kept, every returned row matches all supplied filters, and
the result is a sublist of the store's rows in insertion order (a stable
order). -/
theorem C8_list_filter_pagination (db : DB) (skip limit : Nat) (cat : Option String)
    (disp : Option Bool) (_hlim : 1 ≤ limit) :
    get_all db skip limit cat disp =
      ((db.rows.filter (fun r => matchesCat cat r && matchesDisp disp r)).drop skip).take
        limit ∧
    (∀ r ∈ get_all db skip limit cat disp, matchesCat cat r = true ∧ matchesDisp disp r = true) ∧
    (get_all db skip limit cat disp).length ≤ limit ∧
    (get_all db skip limit cat disp).Sublist db.rows := by
  have he := applyFilters_eq_filter cat disp db.rows
  have hget : get_all db skip limit cat disp =
      ((db.rows.filter (fun r => matchesCat cat r && matchesDisp disp r)).drop skip).take
        limit := by
    unfold get_all
    rw [he]
  refine ⟨hget, ?_, ?_, ?_⟩
  · intro r hr
    rw [hget] at hr
    have h2 := List.drop_subset _ _ (List.take_subset _ _ hr)
    have h3 := (List.mem_filter.mp h2).2
    simp only [Bool.and_eq_true] at h3
    exact h3
  · rw [hget]
    exact List.length_take_le _ _
  · rw [hget]
    exact ((List.take_sublist _ _).trans (List.drop_sublist _ _)).trans (List.filter_sublist _)

/-- Two-row store for the C8 witness. -/
def c8db : DB :=
  ⟨[⟨1, "Pan Frances", "PAN-0001", "Pan", ⟨125, -2⟩, 120, true, 0, 0⟩,
    ⟨2, "Pan Integral", "PAN-0002", "Pan", ⟨150, -2⟩, 60, false, 0, 0⟩], 3⟩

/-- C8 witness: pagination over the Pan category of the sample store. -/
theorem C8_list_filter_pagination_witness :
    get_all c8db 1 1 (some "Pan") none =
      ((c8db.rows.filter (fun r => matchesCat (some "Pan") r && matchesDisp none r)).drop
        1).take 1 ∧
    (get_all c8db 0 1 (some "Pan") none).length ≤ 1 :=
  ⟨(C8_list_filter_pagination c8db 1 1 (some "Pan") none (by decide)).1,
   (C8_list_filter_pagination c8db 0 1 (some "Pan") none (by decide)).2.2.1⟩

/-- C10: the empty string as category filter is falsy in Python, so both
`get_all` and `count_all` treat it exactly like no category filter at
all rather than matching zero records. -/
theorem C10_empty_category_filter (db : DB) (skip limit : Nat) (disp : Option Bool) :
    get_all db skip limit (some "") disp = get_all db skip limit none disp ∧
    count_all db (some "") disp = count_all db none disp := by
  constructor <;> simp [get_all, count_all, applyCatFilter]

/-- A suffix-scan succeeds exactly when some suffix passes the test. -/
lemma anySuffix_iff (f : List Char → Bool) (s : List Char) :
    anySuffix f s = true ↔ ∃ t, t <:+ s ∧ f t = true := by
  induction s with
  | nil =>
    simp [anySuffix]
  | cons c cs ih =>
    simp only [anySuffix, Bool.or_eq_true, ih]
    constructor
    · rintro (h | ⟨t, ht, hf⟩)
      · exact ⟨c :: cs, List.suffix_refl _, h⟩
      · exact ⟨t, List.suffix_cons_iff.mpr (Or.inr ht), hf⟩
    · rintro ⟨t, ht, hf⟩
      rcases List.suffix_cons_iff.mp ht with h1 | h2
      · exact Or.inl (h1 ▸ hf)
      · exact Or.inr ⟨t, h2, hf⟩

/-- LIKE matching of a wildcard-free literal followed by `%` is exactly
matching the literal as a prefix. -/
lemma likeMatch_lit_pct (lit : List Char) :
    ∀ t, (∀ c ∈ lit, c ≠ '%' ∧ c ≠ '_') →
      (likeMatch (lit ++ ['%']) t = true ↔ lit <+: t) := by
  induction lit with
  | nil =>
    intro t _
    refine iff_of_true ?_ List.nil_prefix
    show likeMatch ['%'] t = true
    simp only [likeMatch]
    exact (anySuffix_iff _ _).mpr ⟨[], List.nil_suffix, rfl⟩
  | cons p ps ih =>
    intro t hl
    have hp := hl p (List.mem_cons_self p ps)
    have hps : ∀ c ∈ ps, c ≠ '%' ∧ c ≠ '_' := fun c hc => hl c (List.mem_cons_of_mem p hc)
    cases t with
    | nil =>
      simp [likeMatch, hp.1]
    | cons c cs =>
      simp only [List.cons_append, likeMatch, hp.1, hp.2, if_false, List.append_eq]
      rw [List.cons_prefix_cons, Bool.and_eq_true, beq_iff_eq, ih cs hps]

/-- LIKE matching of `%lit%` with a wildcard-free literal is exactly
containment of the literal. -/
lemma likeMatch_pct (lit s : List Char) (hl : ∀ c ∈ lit, c ≠ '%' ∧ c ≠ '_') :
    likeMatch ('%' :: (lit ++ ['%'])) s = true ↔ lit <:+: s := by
  simp only [likeMatch, if_true]
  rw [anySuffix_iff]
  constructor
  · rintro ⟨t, hts, hm⟩
    exact List.infix_iff_prefix_suffix.mpr ⟨t, (likeMatch_lit_pct lit t hl).mp hm, hts⟩
  · intro h
    obtain ⟨t, hpt, hts⟩ := List.infix_iff_prefix_suffix.mp h
    exact ⟨t, hts, (likeMatch_lit_pct lit t hl).mpr hpt⟩

/-- Lowercasing a basic-latin capital cannot produce an SQL wildcard. -/
lemma char_shift_ne_wild (n : Nat) (h1 : n ≥ 65) (h2 : n ≤ 90) :
    Char.ofNat (n + 32) ≠ '%' ∧ Char.ofNat (n + 32) ≠ '_' := by
  interval_cases n <;> exact ⟨by decide, by decide⟩

/-- Only `%` lowercases to `%`, and only `_` lowercases to `_`. -/
lemma toLower_wild {c : Char} :
    (Char.toLower c = '%' → c = '%') ∧ (Char.toLower c = '_' → c = '_') := by
  have hred : Char.toLower c =
      if c.toNat ≥ 65 ∧ c.toNat ≤ 90 then Char.ofNat (c.toNat + 32) else c := rfl
  rw [hred]
  split_ifs with h
  · have hw := char_shift_ne_wild c.toNat h.1 h.2
    exact ⟨fun hh => absurd hh hw.1, fun hh => absurd hh hw.2⟩
  · exact ⟨id, id⟩

/-- A wildcard-free search string stays wildcard-free after
lowercasing. -/
lemma pyLower_wild_free {n : String} (hn : ∀ c ∈ n.data, c ≠ '%' ∧ c ≠ '_') :
    ∀ c ∈ pyLower n, c ≠ '%' ∧ c ≠ '_' := by
  intro c hc
  obtain ⟨c0, hc0, rfl⟩ := List.mem_map.mp hc
  have h0 := hn c0 hc0
  exact ⟨fun hh => h0.1 (toLower_wild.1 hh), fun hh => h0.2 (toLower_wild.2 hh)⟩

/-- Lowercasing the `'%' + nombre + '%'` search pattern wraps the
lowercased search string in literal `%` wildcards. -/
lemma pyLower_pct_wrap (n : String) :
    pyLower ("%" ++ n ++ "%") = '%' :: (pyLower n ++ ['%']) := by
  have h1 : ("%" ++ n ++ "%").data = '%' :: (n.data ++ ['%']) := by
    rw [String.data_append, String.data_append]
    rfl
  unfold pyLower
  rw [h1]
  simp only [List.map_cons, List.map_append, List.map_nil]
  rfl

/-- One-row store whose row name contains no underscore, for the C9
counterexample. -/
def c9db : DB := ⟨[⟨1, "X", "XAB-1", "Pan", ⟨100, -2⟩, 1, true, 0, 0⟩], 2⟩

/-- The row of `c9db`. -/
def c9row : Producto := ⟨1, "X", "XAB-1", "Pan", ⟨100, -2⟩, 1, true, 0, 0⟩

/-- C9 counterexample: searching for the one-character string `"_"`
returns the row named `"X"` because `_` is an unescaped LIKE wildcard,
although `"_"` is not a literal substring of `"X"` — so the search is
not literal-substring containment for every search string. -/
theorem C9_counterexample :
    search_by_nombre c9db "_" 0 10 = [c9row] ∧
    specSearchByNombre c9db "_" 0 10 = [] := by
  decide

/-- C9 (amended): for every search string containing no SQL LIKE
wildcard (`%` or `_`), `search_by_nombre` returns exactly the records
whose name contains the string as a case-insensitive literal substring,
with the same skip/limit pagination as listing; a search string with
wildcards instead matches per LIKE semantics. -/
theorem C9_search_substring (db : DB) (nombre : String) (skip limit : Nat)
    (hn : ∀ c ∈ nombre.data, c ≠ '%' ∧ c ≠ '_') :
    search_by_nombre db nombre skip limit = specSearchByNombre db nombre skip limit := by
  unfold search_by_nombre specSearchByNombre
  have hfilter : db.rows.filter (fun r => ilike r.nombre ("%" ++ nombre ++ "%")) =
      db.rows.filter (fun r => decide (pyLower nombre <:+: pyLower r.nombre)) := by
    apply List.filter_congr
    intro r _
    unfold ilike
    rw [pyLower_pct_wrap, Bool.eq_iff_iff]
    simp only [decide_eq_true_eq]
    exact likeMatch_pct (pyLower nombre) (pyLower r.nombre) (pyLower_wild_free hn)
  rw [hfilter]

/-- One-row store for the C9 witness. -/
def c9db2 : DB := ⟨[⟨1, "Pan Frances", "PAN-0001", "Pan", ⟨125, -2⟩, 120, true, 0, 0⟩], 2⟩

/-- C9 witness: the wildcard-free search string `"pan"` agrees with
literal case-insensitive substring search on the sample store. -/
theorem C9_search_substring_witness :
    search_by_nombre c9db2 "pan" 0 10 = specSearchByNombre c9db2 "pan" 0 10 :=
  C9_search_substring c9db2 "pan" 0 10 (by decide)
